import Mathlib

/-!
Shallow embedding of the error-normalization layer of `backend/app/main.py`:
the three exception handlers installed by `add_exception_handlers` (HTTP
errors, request-validation errors, and the catch-all), plus the `/healths`
endpoint of `create_app`.  Python dicts are modelled as key-ordered
association lists, JSON values as an inductive type, and the fallible parts
of the Python code (attribute errors, the unbound-local in the catch-all)
as `Except`.
-/

namespace AppMain

/-- JSON-like values appearing in detail payloads and response envelopes. -/
inductive JValue where
  | str (s : String)
  | int (n : Int)
  | bool (b : Bool)
  | null
deriving DecidableEq

/-- A Python dict, modelled as an association list in insertion order.
Dicts coming from Python always have pairwise-distinct keys (`KeysNodup`). -/
abbrev Dict := List (String × JValue)

/-- Dict lookup: first binding wins (the only one, for well-formed dicts). -/
def Dict.get? : Dict → String → Option JValue
  | [], _ => none
  | (k', v) :: rest, k => if k' = k then some v else Dict.get? rest k

/-- Python dict assignment `d[k] = v`: update the binding in place if the key
is present (keeping its position), otherwise append it at the end. -/
def Dict.set : Dict → String → JValue → Dict
  | [], k, v => [(k, v)]
  | (k', v') :: rest, k, v =>
    if k' = k then (k, v) :: rest else (k', v') :: Dict.set rest k v

/-- The keys of a dict, in order. -/
def Dict.keys (d : Dict) : List String := d.map Prod.fst

/-- Well-formedness of a dict: pairwise-distinct keys (always true of a dict
arriving from Python). -/
abbrev Dict.KeysNodup (d : Dict) : Prop := d.keys.Nodup

/-- Python `{**base-literal, **detail}` as it appears in the handlers:
the base fields are written first, then the detail entries are merged in,
a detail entry overriding a base entry with the same key. -/
def mergeDict (base d : Dict) : Dict :=
  d.foldl (fun acc p => Dict.set acc p.1 p.2) base

/-- The request metadata read by every handler: `request.method`,
`request.url.path`, and `datetime.utcnow().isoformat()` taken at handling
time. -/
structure RequestMeta where
  method : String
  path : String
  timestamp : String
deriving DecidableEq

/-- A `JSONResponse`: its `status_code` and its `content` argument
(`none` when the content argument is omitted, as in the 403 branch). -/
structure HResponse where
  status_code : Nat
  content : Option Dict
deriving DecidableEq

/-- The base fields `timestamp`, `method`, `path` written at the front of
every envelope literal. -/
def baseDict (req : RequestMeta) : Dict :=
  [("timestamp", JValue.str req.timestamp),
   ("method", JValue.str req.method),
   ("path", JValue.str req.path)]

/-- The detail payload attached to an `HTTPException`: either a dict, or an
arbitrary non-dict object carried here by its `str(...)` form. -/
inductive Detail where
  | plain (s : String)
  | dict (d : Dict)
deriving DecidableEq

/-- Line 16 of `main.py`: `detail = exc.detail if isinstance(exc.detail, dict)
else a dict with error "Error" and message str(exc.detail)`. -/
def normalizeDetail : Detail → Dict
  | Detail.plain s => [("error", JValue.str "Error"), ("message", JValue.str s)]
  | Detail.dict d => d

/-- Line 22 of `main.py`: `alert = detail.get("alert", False)`.  Read from the
detail but never used in this snapshot (the `handle_error` calls are
commented out); note that `get` does not remove the key. -/
def alertFlag (d : Dict) : JValue :=
  (Dict.get? d "alert").getD (JValue.bool false)

/-- Python `pat in s` on strings: substring test over the character list. -/
def hasSubstr (pat : List Char) : List Char → Bool
  | [] => pat.isEmpty
  | c :: rest => pat.isPrefixOf (c :: rest) || hasSubstr pat rest

/-- Python `s.lower()` (ASCII case folding suffices for the strings the
handler compares). -/
def pyLower (s : String) : String := String.mk (s.data.map Char.toLower)

/-- The test of line 34: `'autho' in <already-lowered string>`. -/
def containsAutho (s : String) : Bool :=
  hasSubstr "autho".data s.data

/-- Line 34 of `main.py`: `detail.get("error", "").lower()`.  Fails (Python
`AttributeError`) when the `error` value is present but not a string. -/
def errFieldLower (d : Dict) : Except String String :=
  match Dict.get? d "error" with
  | none => Except.ok ""
  | some (JValue.str s) => Except.ok (pyLower s)
  | some _ => Except.error "AttributeError"

/-- `http_exception_handler` (lines 15-66 of `main.py`).  Dispatch on
`exc.status_code`:
* 400, 404 and the default branch set `status`/`code` on the detail to the
  incoming status and return the full envelope with that status;
* 401 lowers the detail's `error` field, and sets `status`/`code` to 401
  when it contains `"autho"`, else to 402 — but the `JSONResponse` status is
  `status.HTTP_401_UNAUTHORIZED` (401) in both cases;
* 403 sets `status`/`code` on the (then discarded) detail and returns a
  response whose content argument is commented out. -/
def http_exception_handler (req : RequestMeta) (status_code : Nat)
    (rawDetail : Detail) : Except String HResponse :=
  if status_code = 400 then
    Except.ok ⟨400, some (mergeDict (baseDict req)
      (Dict.set (Dict.set (normalizeDetail rawDetail) "status" (JValue.int 400))
        "code" (JValue.int 400)))⟩
  else if status_code = 401 then
    match errFieldLower (normalizeDetail rawDetail) with
    | Except.error e => Except.error e
    | Except.ok s =>
      if containsAutho s then
        Except.ok ⟨401, some (mergeDict (baseDict req)
          (Dict.set (Dict.set (normalizeDetail rawDetail) "status" (JValue.int 401))
            "code" (JValue.int 401)))⟩
      else
        Except.ok ⟨401, some (mergeDict (baseDict req)
          (Dict.set (Dict.set (normalizeDetail rawDetail) "status" (JValue.int 402))
            "code" (JValue.int 402)))⟩
  else if status_code = 403 then
    Except.ok ⟨403, none⟩
  else if status_code = 404 then
    Except.ok ⟨404, some (mergeDict (baseDict req)
      (Dict.set (Dict.set (normalizeDetail rawDetail) "status" (JValue.int 404))
        "code" (JValue.int 404)))⟩
  else
    Except.ok ⟨status_code, some (mergeDict (baseDict req)
      (Dict.set (Dict.set (normalizeDetail rawDetail) "status" (JValue.int status_code))
        "code" (JValue.int status_code)))⟩

/-- One entry of `exc.errors()` in the validation handler: a location path
(elements already passed through `str`) and a message. -/
structure FieldError where
  loc : List String
  msg : String
deriving DecidableEq

/-- Line 77 of `main.py`, one list element:
`f"{'.'.join(map(str, error['loc'][1:]))}: {error['msg']}"`. -/
def fieldErrorMessage (e : FieldError) : String :=
  String.intercalate "." (e.loc.drop 1) ++ ": " ++ e.msg

/-- Line 77 of `main.py`: `" ".join([...])` over all validation errors. -/
def joinedMessages (errs : List FieldError) : String :=
  String.intercalate " " (errs.map fieldErrorMessage)

/-- `validation_exception_handler` (lines 69-90 of `main.py`). -/
def validation_exception_handler (req : RequestMeta) (errs : List FieldError) :
    HResponse :=
  ⟨422, some
    [("timestamp", JValue.str req.timestamp),
     ("method", JValue.str req.method),
     ("path", JValue.str req.path),
     ("status", JValue.int 422),
     ("code", JValue.int 422),
     ("error", JValue.str "Request Validation Error"),
     ("message", JValue.str (joinedMessages errs))]⟩

/-- The exceptions reaching the catch-all handler: `h11.LocalProtocolError`
or any other exception (carried here by its `str(...)` form). -/
inductive ExcKind where
  | localProtocolError
  | other (msg : String)
deriving DecidableEq

/-- The `error` local assigned in the non-protocol branch (line 104). -/
def primaryError : String := "An internal server error occurred."

/-- The `message` local assigned in the non-protocol branch (line 105). -/
def primaryMessage : String := "알수없는 에러가 발생했습니다. 자세한 사항은 errorlog 참고"

/-- The `message` of the hard-coded fallback envelope (line 141). -/
def fallbackMessage : String := "알수없는 에러가 발생했습니다. 자세한 사항은 채널톡으로 문의주세요."

/-- The `response_content` dict of the try block (lines 111-119). -/
def primaryContent (req : RequestMeta) : Dict :=
  [("timestamp", JValue.str req.timestamp),
   ("method", JValue.str req.method),
   ("path", JValue.str req.path),
   ("status", JValue.int 500),
   ("code", JValue.int 500),
   ("error", JValue.str primaryError),
   ("message", JValue.str primaryMessage)]

/-- The `response_content` dict of the except block (lines 134-142). -/
def fallbackContent (req : RequestMeta) : Dict :=
  [("timestamp", JValue.str req.timestamp),
   ("method", JValue.str req.method),
   ("path", JValue.str req.path),
   ("status", JValue.int 500),
   ("code", JValue.int 500),
   ("error", JValue.str primaryError),
   ("message", JValue.str fallbackMessage)]

/-- The try block of `general_exception_handler` (lines 96-124).  For a
`LocalProtocolError` the `if isinstance` branch is `pass`, so the locals
`error` and `message` are never assigned and building `response_content`
raises `UnboundLocalError`; for every other exception it succeeds with the
primary envelope. -/
def tryBlock (req : RequestMeta) (exc : ExcKind) : Except String Dict :=
  match exc with
  | ExcKind.localProtocolError => Except.error "UnboundLocalError"
  | ExcKind.other _ => Except.ok (primaryContent req)

/-- `general_exception_handler` (lines 95-147 of `main.py`): the try block,
and on any exception from it, the hard-coded 500 fallback envelope. -/
def general_exception_handler (req : RequestMeta) (exc : ExcKind) : HResponse :=
  match tryBlock req exc with
  | Except.ok c => ⟨500, some c⟩
  | Except.error _ => ⟨500, some (fallbackContent req)⟩

/-- The body returned by `health_check` (lines 166-168 of `main.py`). -/
def health_check : Dict := [("status", JValue.str "ok")]

/-- The response of `GET /healths`: the route decorator sets no
`status_code`, so the framework's default success status 200 applies, with
the `health_check` body. -/
def health_check_response : HResponse := ⟨200, some health_check⟩

/-- A concrete request, used for the concrete-evaluation theorems. -/
def sampleReq : RequestMeta := ⟨"GET", "/api/v1/x", "2026-10-12T00:00:00"⟩

/-! Generic lemmas about the dict model. -/

theorem Dict.get_set_self (d : Dict) (k : String) (v : JValue) :
    Dict.get? (Dict.set d k v) k = some v := by
  induction d with
  | nil => simp [Dict.set, Dict.get?]
  | cons p rest ih =>
    obtain ⟨k0, v0⟩ := p
    by_cases h : k0 = k
    · simp [Dict.set, Dict.get?, h]
    · simp [Dict.set, Dict.get?, h, ih]

theorem Dict.get_set_ne (d : Dict) (k k' : String) (v : JValue) (hne : k' ≠ k) :
    Dict.get? (Dict.set d k v) k' = Dict.get? d k' := by
  induction d with
  | nil => simp [Dict.set, Dict.get?, Ne.symm hne]
  | cons p rest ih =>
    obtain ⟨k0, v0⟩ := p
    by_cases h : k0 = k
    · subst h
      simp [Dict.set, Dict.get?, Ne.symm hne]
    · by_cases h2 : k0 = k'
      · subst h2
        simp [Dict.set, Dict.get?, hne]
      · simp [Dict.set, Dict.get?, h, h2, ih]

theorem Dict.get_eq_none (d : Dict) (k : String) (h : k ∉ Dict.keys d) :
    Dict.get? d k = none := by
  induction d with
  | nil => rfl
  | cons p rest ih =>
    obtain ⟨k0, v0⟩ := p
    simp only [Dict.keys, List.map_cons, List.mem_cons] at h
    push_neg at h
    simp [Dict.get?, Ne.symm h.1, ih h.2]

theorem Dict.keys_set (d : Dict) (k : String) (v : JValue) :
    Dict.keys (Dict.set d k v) =
      if k ∈ Dict.keys d then Dict.keys d else Dict.keys d ++ [k] := by
  induction d with
  | nil => simp [Dict.set, Dict.keys]
  | cons p rest ih =>
    obtain ⟨k0, v0⟩ := p
    by_cases h : k0 = k
    · subst h
      simp [Dict.set, Dict.keys]
    · have hne' : k ≠ k0 := fun hk => h hk.symm
      simp only [Dict.set, if_neg h, Dict.keys, List.map_cons] at *
      rw [ih]
      by_cases h2 : k ∈ List.map Prod.fst rest
      · simp [h2, hne']
      · simp [h2, hne']

theorem Dict.KeysNodup.set {d : Dict} (hd : Dict.KeysNodup d) (k : String)
    (v : JValue) : Dict.KeysNodup (Dict.set d k v) := by
  unfold Dict.KeysNodup at *
  rw [Dict.keys_set]
  by_cases h : k ∈ Dict.keys d
  · simpa [h] using hd
  · simp [h, List.nodup_append, hd]

theorem get_merge (base d : Dict) (hd : Dict.KeysNodup d) (k : String) :
    Dict.get? (mergeDict base d) k =
      match Dict.get? d k with
      | some v => some v
      | none => Dict.get? base k := by
  induction d generalizing base with
  | nil => rfl
  | cons p rest ih =>
    obtain ⟨k0, v0⟩ := p
    have hcons := hd
    simp only [Dict.KeysNodup, Dict.keys, List.map_cons, List.nodup_cons] at hcons
    obtain ⟨hk0, hd'⟩ := hcons
    have hstep : mergeDict base ((k0, v0) :: rest) =
        mergeDict (Dict.set base k0 v0) rest := rfl
    rw [hstep, ih (Dict.set base k0 v0) hd']
    by_cases h : k0 = k
    · subst h
      rw [Dict.get_eq_none rest k0 hk0, Dict.get_set_self]
      simp [Dict.get?]
    · rw [Dict.get_set_ne base k0 k v0 (Ne.symm h)]
      simp [Dict.get?, h]

/-! Branch lemmas for the HTTP handler and the shape of the standard body. -/

theorem http_handler_eq_default (req : RequestMeta) (q : Nat) (d : Detail)
    (h1 : q ≠ 401) (h3 : q ≠ 403) :
    http_exception_handler req q d =
      Except.ok ⟨q, some (mergeDict (baseDict req)
        (Dict.set (Dict.set (normalizeDetail d) "status" (JValue.int q))
          "code" (JValue.int q)))⟩ := by
  by_cases h400 : q = 400
  · subst h400
    rfl
  · by_cases h404 : q = 404
    · subst h404
      rfl
    · simp only [http_exception_handler, if_neg h400, if_neg h1, if_neg h3,
        if_neg h404]

theorem http_handler_eq_401 (req : RequestMeta) (d : Detail) (s : String)
    (hs : errFieldLower (normalizeDetail d) = Except.ok s) :
    http_exception_handler req 401 d =
      if containsAutho s then
        Except.ok ⟨401, some (mergeDict (baseDict req)
          (Dict.set (Dict.set (normalizeDetail d) "status" (JValue.int 401))
            "code" (JValue.int 401)))⟩
      else
        Except.ok ⟨401, some (mergeDict (baseDict req)
          (Dict.set (Dict.set (normalizeDetail d) "status" (JValue.int 402))
            "code" (JValue.int 402)))⟩ := by
  have h0 : (401 : Nat) ≠ 400 := by decide
  simp only [http_exception_handler, if_neg h0, if_pos rfl, hs, if_true]

theorem std_body_spec (req : RequestMeta) (nd : Dict) (hnd : Dict.KeysNodup nd)
    (q : Int) :
    Dict.get? (mergeDict (baseDict req)
        (Dict.set (Dict.set nd "status" (JValue.int q)) "code" (JValue.int q)))
        "status" = some (JValue.int q) ∧
    Dict.get? (mergeDict (baseDict req)
        (Dict.set (Dict.set nd "status" (JValue.int q)) "code" (JValue.int q)))
        "code" = some (JValue.int q) ∧
    ∀ k, k ≠ "status" → k ≠ "code" → k ≠ "timestamp" → k ≠ "method" →
      k ≠ "path" →
      Dict.get? (mergeDict (baseDict req)
        (Dict.set (Dict.set nd "status" (JValue.int q)) "code" (JValue.int q)))
        k = Dict.get? nd k := by
  have hnd2 : Dict.KeysNodup
      (Dict.set (Dict.set nd "status" (JValue.int q)) "code" (JValue.int q)) :=
    Dict.KeysNodup.set (Dict.KeysNodup.set hnd "status" _) "code" _
  refine ⟨?_, ?_, ?_⟩
  · rw [get_merge _ _ hnd2, Dict.get_set_ne _ _ _ _ (by decide),
      Dict.get_set_self]
  · rw [get_merge _ _ hnd2, Dict.get_set_self]
  · intro k hks hkc hkt hkm hkp
    rw [get_merge _ _ hnd2, Dict.get_set_ne _ _ _ _ hkc,
      Dict.get_set_ne _ _ _ _ hks]
    cases hg : Dict.get? nd k with
    | some v => rfl
    | none => simp [baseDict, Dict.get?, Ne.symm hkt, Ne.symm hkm, Ne.symm hkp]

/-! Claim theorems. -/

/-- C1, counterexample: a 401 error whose detail `error` field is
"Something else" (which does not contain "autho") still gets HTTP response
status 401, not the 402 the claim asserts; only the body's `status`/`code`
fields hold 402. -/
theorem c1_counterexample :
    containsAutho (pyLower "Something else") = false ∧
    http_exception_handler sampleReq 401
        (Detail.dict [("error", JValue.str "Something else"),
          ("message", JValue.str "m")]) =
      Except.ok ⟨401, some
        [("timestamp", JValue.str "2026-10-12T00:00:00"),
         ("method", JValue.str "GET"), ("path", JValue.str "/api/v1/x"),
         ("error", JValue.str "Something else"), ("message", JValue.str "m"),
         ("status", JValue.int 402), ("code", JValue.int 402)]⟩ ∧
    (401 : Nat) ≠ 402 :=
  ⟨by decide, rfl, by decide⟩

/-- C1, amended: for a 401 HTTP error whose detail `error` field lowers to
`s`, the HTTP response status is 401 in both cases; it is the envelope's
`status` and `code` fields that are 401 when `s` contains "autho" and 402
otherwise. -/
theorem c1_remap_amended (req : RequestMeta) (d : Detail) (s : String)
    (hs : errFieldLower (normalizeDetail d) = Except.ok s)
    (hnd : Dict.KeysNodup (normalizeDetail d)) :
    ∃ body, http_exception_handler req 401 d = Except.ok ⟨401, some body⟩ ∧
      Dict.get? body "status" =
        some (JValue.int (if containsAutho s then 401 else 402)) ∧
      Dict.get? body "code" =
        some (JValue.int (if containsAutho s then 401 else 402)) := by
  rw [http_handler_eq_401 req d s hs]
  by_cases h : containsAutho s = true
  · simp only [h, if_true]
    exact ⟨_, rfl, (std_body_spec req _ hnd 401).1,
      (std_body_spec req _ hnd 401).2.1⟩
  · simp only [h, if_false, Bool.false_eq_true]
    exact ⟨_, rfl, (std_body_spec req _ hnd 402).1,
      (std_body_spec req _ hnd 402).2.1⟩

/-- C1, witness for the amended theorem: a concrete autho-carrying and a
concrete autho-less detail. -/
theorem c1_remap_amended_witness :
    ∃ body, http_exception_handler sampleReq 401
        (Detail.dict [("error", JValue.str "Authorization failed"),
          ("message", JValue.str "m")]) =
      Except.ok ⟨401, some body⟩ ∧
      Dict.get? body "status" =
        some (JValue.int (if containsAutho "authorization failed"
          then 401 else 402)) ∧
      Dict.get? body "code" =
        some (JValue.int (if containsAutho "authorization failed"
          then 401 else 402)) :=
  c1_remap_amended sampleReq _ "authorization failed" rfl (by decide)

/-- C2, counterexample: for `h11.LocalProtocolError` the catch-all handler
returns the fallback message, not the single fixed primary message the claim
asserts for every exception. -/
theorem c2_counterexample :
    (general_exception_handler sampleReq ExcKind.localProtocolError).status_code
      = 500 ∧
    Dict.get?
        ((general_exception_handler sampleReq
          ExcKind.localProtocolError).content.getD []) "message" =
      some (JValue.str fallbackMessage) ∧
    fallbackMessage ≠ primaryMessage :=
  ⟨rfl, rfl, by decide⟩

/-- C2, amended: every exception reaching the catch-all yields status 500
with a full envelope; exceptions other than `LocalProtocolError` get the
fixed primary error/message pair, while `LocalProtocolError` leaves the
`error`/`message` locals unassigned, so the try block fails and the
fallback envelope (same error label, different message) is returned. -/
theorem c2_catchall_amended (req : RequestMeta) (exc : ExcKind) :
    (general_exception_handler req exc).status_code = 500 ∧
    (general_exception_handler req exc).content =
      some (match exc with
        | ExcKind.localProtocolError => fallbackContent req
        | ExcKind.other _ => primaryContent req) := by
  cases exc <;> exact ⟨rfl, rfl⟩

/-- C3, counterexample: a 400 error whose detail carries an `alert` key
produces an envelope that does emit `alert` and has eight fields, refuting
both the exactly-seven-fields invariant and the never-emitted claim. -/
theorem c3_counterexample :
    (http_exception_handler sampleReq 400
        (Detail.dict [("error", JValue.str "E"), ("message", JValue.str "M"),
          ("alert", JValue.bool true)])).map
        (fun r => Dict.keys (r.content.getD [])) =
      Except.ok ["timestamp", "method", "path", "error", "message", "alert",
        "status", "code"] ∧
    (http_exception_handler sampleReq 400
        (Detail.dict [("error", JValue.str "E"), ("message", JValue.str "M"),
          ("alert", JValue.bool true)])).map
        (fun r => Dict.get? (r.content.getD []) "alert") =
      Except.ok (some (JValue.bool true)) ∧
    alertFlag [("error", JValue.str "E"), ("message", JValue.str "M"),
        ("alert", JValue.bool true)] = JValue.bool true :=
  ⟨rfl, rfl, rfl⟩

/-- C3, amended: a terminal response body carries exactly the seven fields
`timestamp, method, path, status, code, error, message` when the detail
mapping carries exactly the keys `error` and `message` (the 403 branch,
which sends no body, excepted), and likewise for the validation and
catch-all handlers; but the `alert` flag, though read, is not removed from
the detail, so when present it is additionally emitted in the envelope. -/
theorem c3_envelope_fields_amended (req : RequestMeta) (q : Nat)
    (e m : String) (a : JValue) (hq : q ≠ 403) :
    (∃ body, http_exception_handler req q
        (Detail.dict [("error", JValue.str e), ("message", JValue.str m)]) =
      Except.ok ⟨q, some body⟩ ∧
      Dict.keys body =
        ["timestamp", "method", "path", "error", "message", "status", "code"]) ∧
    (∃ body, http_exception_handler req q
        (Detail.dict [("error", JValue.str e), ("message", JValue.str m),
          ("alert", a)]) =
      Except.ok ⟨q, some body⟩ ∧
      Dict.keys body =
        ["timestamp", "method", "path", "error", "message", "alert",
         "status", "code"] ∧
      Dict.get? body "alert" = some a) ∧
    (∀ errs, Dict.keys ((validation_exception_handler req errs).content.getD [])
      = ["timestamp", "method", "path", "status", "code", "error", "message"]) ∧
    (∀ exc, Dict.keys ((general_exception_handler req exc).content.getD [])
      = ["timestamp", "method", "path", "status", "code", "error", "message"]) := by
  refine ⟨?_, ?_, fun errs => rfl, fun exc => by cases exc <;> rfl⟩
  · by_cases h401 : q = 401
    · subst h401
      rw [http_handler_eq_401 req
        (Detail.dict [("error", JValue.str e), ("message", JValue.str m)])
        (pyLower e) rfl]
      by_cases h : containsAutho (pyLower e) = true
      · simp only [h, if_true]
        exact ⟨_, rfl, rfl⟩
      · simp only [h, if_false, Bool.false_eq_true]
        exact ⟨_, rfl, rfl⟩
    · rw [http_handler_eq_default req q _ h401 hq]
      exact ⟨_, rfl, rfl⟩
  · by_cases h401 : q = 401
    · subst h401
      rw [http_handler_eq_401 req
        (Detail.dict [("error", JValue.str e), ("message", JValue.str m),
          ("alert", a)]) (pyLower e) rfl]
      by_cases h : containsAutho (pyLower e) = true
      · simp only [h, if_true]
        exact ⟨_, rfl, rfl, rfl⟩
      · simp only [h, if_false, Bool.false_eq_true]
        exact ⟨_, rfl, rfl, rfl⟩
    · rw [http_handler_eq_default req q _ h401 hq]
      exact ⟨_, rfl, rfl, rfl⟩

/-- C3, witness for the amended theorem, at status 400 with string detail
values. -/
theorem c3_envelope_fields_amended_witness :
    (∃ body, http_exception_handler sampleReq 400
        (Detail.dict [("error", JValue.str "E"), ("message", JValue.str "M")]) =
      Except.ok ⟨400, some body⟩ ∧
      Dict.keys body =
        ["timestamp", "method", "path", "error", "message", "status", "code"]) ∧
    (∃ body, http_exception_handler sampleReq 400
        (Detail.dict [("error", JValue.str "E"), ("message", JValue.str "M"),
          ("alert", JValue.bool true)]) =
      Except.ok ⟨400, some body⟩ ∧
      Dict.keys body =
        ["timestamp", "method", "path", "error", "message", "alert",
         "status", "code"] ∧
      Dict.get? body "alert" = some (JValue.bool true)) ∧
    (∀ errs, Dict.keys
        ((validation_exception_handler sampleReq errs).content.getD [])
      = ["timestamp", "method", "path", "status", "code", "error", "message"]) ∧
    (∀ exc, Dict.keys
        ((general_exception_handler sampleReq exc).content.getD [])
      = ["timestamp", "method", "path", "status", "code", "error", "message"]) :=
  c3_envelope_fields_amended sampleReq 400 "E" "M" (JValue.bool true) (by decide)

/-- C4, counterexample: a 401 error whose detail `error` field is
"quota exceeded" gets HTTP response status 401 while its envelope carries
`status` and `code` 402, a second exception to the claimed match besides the
403 case. -/
theorem c4_counterexample :
    (http_exception_handler sampleReq 401
        (Detail.dict [("error", JValue.str "quota exceeded"),
          ("message", JValue.str "m")])).map HResponse.status_code =
      Except.ok 401 ∧
    (http_exception_handler sampleReq 401
        (Detail.dict [("error", JValue.str "quota exceeded"),
          ("message", JValue.str "m")])).map
        (fun r => Dict.get? (r.content.getD []) "status") =
      Except.ok (some (JValue.int 402)) ∧
    (http_exception_handler sampleReq 401
        (Detail.dict [("error", JValue.str "quota exceeded"),
          ("message", JValue.str "m")])).map
        (fun r => Dict.get? (r.content.getD []) "code") =
      Except.ok (some (JValue.int 402)) ∧
    (401 : Int) ≠ 402 :=
  ⟨rfl, rfl, rfl, by decide⟩

/-- C4, amended: the response HTTP status equals the envelope's
`status`/`code` fields on every path except two: the 403 branch, whose
declared status is 403 with no body, and the 401 branch with an autho-less
`error` field, whose response status is 401 while the body says 402. -/
theorem c4_status_matches_amended (req : RequestMeta) (q : Nat) (d : Detail)
    (s : String) (hs : errFieldLower (normalizeDetail d) = Except.ok s)
    (hnd : Dict.KeysNodup (normalizeDetail d)) :
    (q ≠ 401 → q ≠ 403 →
      ∃ body, http_exception_handler req q d = Except.ok ⟨q, some body⟩ ∧
        Dict.get? body "status" = some (JValue.int q) ∧
        Dict.get? body "code" = some (JValue.int q)) ∧
    http_exception_handler req 403 d = Except.ok ⟨403, none⟩ ∧
    (containsAutho s = true →
      ∃ body, http_exception_handler req 401 d = Except.ok ⟨401, some body⟩ ∧
        Dict.get? body "status" = some (JValue.int 401) ∧
        Dict.get? body "code" = some (JValue.int 401)) ∧
    (containsAutho s = false →
      ∃ body, http_exception_handler req 401 d = Except.ok ⟨401, some body⟩ ∧
        Dict.get? body "status" = some (JValue.int 402) ∧
        Dict.get? body "code" = some (JValue.int 402)) ∧
    (∀ errs, (validation_exception_handler req errs).status_code = 422 ∧
      Dict.get? ((validation_exception_handler req errs).content.getD [])
        "status" = some (JValue.int 422) ∧
      Dict.get? ((validation_exception_handler req errs).content.getD [])
        "code" = some (JValue.int 422)) ∧
    (∀ exc, (general_exception_handler req exc).status_code = 500 ∧
      Dict.get? ((general_exception_handler req exc).content.getD [])
        "status" = some (JValue.int 500) ∧
      Dict.get? ((general_exception_handler req exc).content.getD [])
        "code" = some (JValue.int 500)) := by
  refine ⟨?_, rfl, ?_, ?_, fun errs => ⟨rfl, rfl, rfl⟩,
    fun exc => by cases exc <;> exact ⟨rfl, rfl, rfl⟩⟩
  · intro h1 h3
    rw [http_handler_eq_default req q d h1 h3]
    exact ⟨_, rfl, (std_body_spec req _ hnd q).1, (std_body_spec req _ hnd q).2.1⟩
  · intro h
    rw [http_handler_eq_401 req d s hs]
    simp only [h, if_true]
    exact ⟨_, rfl, (std_body_spec req _ hnd 401).1,
      (std_body_spec req _ hnd 401).2.1⟩
  · intro h
    rw [http_handler_eq_401 req d s hs]
    simp only [h, if_false, Bool.false_eq_true]
    exact ⟨_, rfl, (std_body_spec req _ hnd 402).1,
      (std_body_spec req _ hnd 402).2.1⟩

/-- C4, witness for the amended theorem: the matching conjunct at status 404
on a plain-string detail. -/
theorem c4_status_matches_amended_witness :
    ∃ body, http_exception_handler sampleReq 404 (Detail.plain "not found") =
      Except.ok ⟨404, some body⟩ ∧
      Dict.get? body "status" = some (JValue.int 404) ∧
      Dict.get? body "code" = some (JValue.int 404) :=
  (c4_status_matches_amended sampleReq 404 (Detail.plain "not found") "error"
    rfl (by decide)).1 (by decide) (by decide)

/-- C5: a 403 HTTP error yields response status 403 with the content
argument omitted — no envelope fields are sent, whatever the detail. -/
theorem c5_forbidden_no_body (req : RequestMeta) (d : Detail) :
    http_exception_handler req 403 d = Except.ok ⟨403, none⟩ := rfl

/-- C6: every request-validation failure yields status 422, error label
"Request Validation Error", and a message that space-joins, over the
per-field errors in order, the strings formed by dropping the location's
first segment, dot-joining the rest, and appending ": " and the message;
on the spec's example input the message is
"name: required age: must be integer". -/
theorem c6_validation_handler (req : RequestMeta) (errs : List FieldError) :
    (validation_exception_handler req errs).status_code = 422 ∧
    Dict.get? ((validation_exception_handler req errs).content.getD [])
      "error" = some (JValue.str "Request Validation Error") ∧
    Dict.get? ((validation_exception_handler req errs).content.getD [])
      "message" = some (JValue.str (String.intercalate " " (errs.map (fun e =>
        String.intercalate "." (e.loc.drop 1) ++ ": " ++ e.msg)))) ∧
    joinedMessages [⟨["body", "name"], "required"⟩,
        ⟨["body", "age"], "must be integer"⟩] =
      "name: required age: must be integer" :=
  ⟨rfl, rfl, rfl, rfl⟩

/-- C7: for statuses 400, 404, and any code other than the specially-handled
401 and 403 (5xx included), the response status equals the input status, the
envelope's `status` and `code` fields equal it as well, and the original
detail entries are echoed in the body. -/
theorem c7_echo_status (req : RequestMeta) (q : Nat) (d : Detail)
    (h1 : q ≠ 401) (h3 : q ≠ 403)
    (hnd : Dict.KeysNodup (normalizeDetail d)) :
    ∃ body, http_exception_handler req q d = Except.ok ⟨q, some body⟩ ∧
      Dict.get? body "status" = some (JValue.int q) ∧
      Dict.get? body "code" = some (JValue.int q) ∧
      ∀ k, k ≠ "status" → k ≠ "code" → k ≠ "timestamp" → k ≠ "method" →
        k ≠ "path" → Dict.get? body k = Dict.get? (normalizeDetail d) k := by
  rw [http_handler_eq_default req q d h1 h3]
  exact ⟨_, rfl, (std_body_spec req _ hnd q).1, (std_body_spec req _ hnd q).2.1,
    (std_body_spec req _ hnd q).2.2⟩

/-- C7, witness: the theorem at status 500 with a structured detail. -/
theorem c7_echo_status_witness :
    ∃ body, http_exception_handler sampleReq 500
        (Detail.dict [("error", JValue.str "boom"),
          ("message", JValue.str "m")]) =
      Except.ok ⟨500, some body⟩ ∧
      Dict.get? body "status" = some (JValue.int 500) ∧
      Dict.get? body "code" = some (JValue.int 500) ∧
      ∀ k, k ≠ "status" → k ≠ "code" → k ≠ "timestamp" → k ≠ "method" →
        k ≠ "path" → Dict.get? body k =
          Dict.get? (normalizeDetail (Detail.dict
            [("error", JValue.str "boom"), ("message", JValue.str "m")])) k :=
  c7_echo_status sampleReq 500
    (Detail.dict [("error", JValue.str "boom"), ("message", JValue.str "m")])
    (by decide) (by decide) (by decide)

/-- C8: the catch-all handler is total — every exception yields a
well-formed 500 response with the full envelope field set, and whenever the
try block (the primary envelope construction) fails, the hard-coded
fallback envelope is returned instead of propagating the failure. -/
theorem c8_catchall_total (req : RequestMeta) (exc : ExcKind) :
    (general_exception_handler req exc).status_code = 500 ∧
    (∃ body, (general_exception_handler req exc).content = some body ∧
      Dict.keys body =
        ["timestamp", "method", "path", "status", "code", "error", "message"]) ∧
    ∀ e, tryBlock req exc = Except.error e →
      general_exception_handler req exc = ⟨500, some (fallbackContent req)⟩ := by
  cases exc with
  | localProtocolError => exact ⟨rfl, ⟨_, rfl, rfl⟩, fun e _ => rfl⟩
  | other msg => exact ⟨rfl, ⟨_, rfl, rfl⟩, fun e he => nomatch he⟩

/-- C8, witness: the theorem at the protocol exception, whose try block does
fail. -/
theorem c8_catchall_total_witness :
    ((general_exception_handler sampleReq
        ExcKind.localProtocolError).status_code = 500 ∧
    (∃ body, (general_exception_handler sampleReq
        ExcKind.localProtocolError).content = some body ∧
      Dict.keys body =
        ["timestamp", "method", "path", "status", "code", "error", "message"]) ∧
    ∀ e, tryBlock sampleReq ExcKind.localProtocolError = Except.error e →
      general_exception_handler sampleReq ExcKind.localProtocolError =
        ⟨500, some (fallbackContent sampleReq)⟩) ∧
    tryBlock sampleReq ExcKind.localProtocolError =
      Except.error "UnboundLocalError" :=
  ⟨c8_catchall_total sampleReq ExcKind.localProtocolError, rfl⟩

/-- C9: a non-dict detail is normalized to a structured detail with `error`
field "Error" and `message` field the string form of the original detail,
and every non-403 envelope built from a plain-string detail carries those
two fields. -/
theorem c9_plain_detail (req : RequestMeta) (s : String) (q : Nat)
    (hq : q ≠ 403) :
    normalizeDetail (Detail.plain s) =
      [("error", JValue.str "Error"), ("message", JValue.str s)] ∧
    ∃ body, http_exception_handler req q (Detail.plain s) =
      Except.ok ⟨q, some body⟩ ∧
      Dict.get? body "error" = some (JValue.str "Error") ∧
      Dict.get? body "message" = some (JValue.str s) := by
  refine ⟨rfl, ?_⟩
  by_cases h401 : q = 401
  · subst h401
    rw [http_handler_eq_401 req (Detail.plain s) (pyLower "Error") rfl]
    have hca : containsAutho (pyLower "Error") = false := rfl
    simp only [hca, if_false, Bool.false_eq_true]
    exact ⟨_, rfl, rfl, rfl⟩
  · rw [http_handler_eq_default req q (Detail.plain s) h401 hq]
    exact ⟨_, rfl, rfl, rfl⟩

/-- C9, witness: the theorem on a concrete plain detail at status 401, where
the synthesized "Error" label does not contain "autho". -/
theorem c9_plain_detail_witness :
    normalizeDetail (Detail.plain "token expired") =
      [("error", JValue.str "Error"),
       ("message", JValue.str "token expired")] ∧
    ∃ body, http_exception_handler sampleReq 401 (Detail.plain "token expired")
      = Except.ok ⟨401, some body⟩ ∧
      Dict.get? body "error" = some (JValue.str "Error") ∧
      Dict.get? body "message" = some (JValue.str "token expired") :=
  c9_plain_detail sampleReq "token expired" 401 (by decide)

/-- C10: the `/healths` endpoint is a constant: its response is status 200
with body consisting of the single field `status` = "ok", with no dependency
on any other state. -/
theorem c10_health_constant :
    health_check_response.status_code = 200 ∧
    health_check_response.content = some [("status", JValue.str "ok")] ∧
    Dict.get? health_check "status" = some (JValue.str "ok") ∧
    Dict.keys health_check = ["status"] :=
  ⟨rfl, rfl, rfl, rfl⟩

end AppMain
